import Mathlib

/-!
Verification of the Mineacraft_Controller pose-control core.

The Python source is embedded shallowly:
* floats are carried exactly: angle samples, thresholds and landmark data are
  rationals (every Python float literal used by the code is a rational), and
  the transcendental angle value produced by `arccos` lives in `ℝ`;
* the classifier's mutable `_last_state` field becomes explicit state passing
  (`Option ControlState` in, `Option ControlState` out);
* raised exceptions become `Except String` results.
-/

namespace MinecraftController

/-! ### `src/src/models/enums.py` -/

/-- `ControlState` enum: NEUTRAL / LEFT_CLICK / RIGHT_CLICK. -/
inductive ControlState where
  | NEUTRAL
  | LEFT_CLICK
  | RIGHT_CLICK
  deriving DecidableEq

/-! ### `src/src/models/data_models.py` -/

/-- `Point` dataclass: a 3D coordinate; coordinates are exact rationals
(the values the code ever feeds in are Python floats). -/
structure Point where
  x : ℚ
  y : ℚ
  z : ℚ := 0
  deriving DecidableEq

/-- `ArmKeypoints` dataclass. -/
structure ArmKeypoints where
  shoulder : Point
  elbow : Point
  wrist : Point
  confidence : ℚ
  deriving DecidableEq

/-! ### `src/src/utils/angle_calculator.py` — class attributes -/

/-- `AngleCalculator.RIGHT_CLICK_THRESHOLD = 60.0`. -/
def RIGHT_CLICK_THRESHOLD {α : Type} [LinearOrderedField α] : α := 60

/-- `AngleCalculator.LEFT_CLICK_THRESHOLD = 90.0`. -/
def LEFT_CLICK_THRESHOLD {α : Type} [LinearOrderedField α] : α := 90

/-- `AngleCalculator.HYSTERESIS_MARGIN = 2.0`. -/
def HYSTERESIS_MARGIN {α : Type} [LinearOrderedField α] : α := 2

/-! ### `AngleCalculator.get_control_state` / `reset_state`

The instance field `self._last_state : Optional[ControlState]` is passed and
returned explicitly.  The method is polymorphic over the ordered field the
angle lives in: the isolated classifier is exercised on rational samples,
the full pipeline feeds it the real angle coming out of `arccos`. -/

/-- `AngleCalculator.get_control_state(angle)`: returns the new state and the
updated `_last_state` memory. -/
def get_control_state {α : Type} [LinearOrderedField α]
    (last : Option ControlState) (angle : α) : ControlState × Option ControlState :=
  -- Apply hysteresis to prevent rapid state changes
  let right_threshold : α :=
    if last = some ControlState.RIGHT_CLICK then
      RIGHT_CLICK_THRESHOLD + HYSTERESIS_MARGIN
    else
      RIGHT_CLICK_THRESHOLD
  let left_threshold : α :=
    if last = some ControlState.LEFT_CLICK then
      LEFT_CLICK_THRESHOLD - HYSTERESIS_MARGIN
    else
      LEFT_CLICK_THRESHOLD
  -- Determine new state based on angle
  let new_state :=
    if angle < right_threshold then ControlState.RIGHT_CLICK
    else if angle > left_threshold then ControlState.LEFT_CLICK
    else ControlState.NEUTRAL
  -- Update last state and return
  (new_state, some new_state)

/-- `AngleCalculator.is_angle_valid(angle)`: `0.0 <= angle <= 180.0`. -/
def is_angle_valid {α : Type} [LinearOrderedField α] (angle : α) : Prop :=
  0 ≤ angle ∧ angle ≤ 180

instance isAngleValidDec {α : Type} [LinearOrderedField α] (angle : α) :
    Decidable (is_angle_valid angle) :=
  inferInstanceAs (Decidable (0 ≤ angle ∧ angle ≤ 180))

/-- `AngleCalculator.reset_state()`: `self._last_state = None`. -/
def reset_state (_last : Option ControlState) : Option ControlState := none

/-- Successive `get_control_state` calls on one `AngleCalculator` instance,
threading the `_last_state` memory through a list of angle samples. -/
def classifyRun {α : Type} [LinearOrderedField α]
    (last : Option ControlState) : List α → List ControlState
  | [] => []
  | a :: rest =>
      let r := get_control_state last a
      r.1 :: classifyRun r.2 rest

/-! ### `AngleCalculator.calculate_elbow_angle` -/

/-- A 3-component vector as built by the `np.array([...])` lines. -/
structure Vec3 where
  x : ℚ
  y : ℚ
  z : ℚ
  deriving DecidableEq

/-- Component-wise difference `p - q` of two keypoints. -/
def vsub (p q : Point) : Vec3 := ⟨p.x - q.x, p.y - q.y, p.z - q.z⟩

/-- `np.dot` on exact coordinates. -/
def dotQ (a b : Vec3) : ℚ := a.x * b.x + a.y * b.y + a.z * b.z

/-- The squared Euclidean norm.  `np.linalg.norm` is its square root; the
norm is zero exactly when the squared norm is. -/
def normSq (a : Vec3) : ℚ := a.x ^ 2 + a.y ^ 2 + a.z ^ 2

/-- `np.linalg.norm`: the Euclidean length, as a real number. -/
noncomputable def vecNorm (a : Vec3) : ℝ := Real.sqrt ((normSq a : ℚ) : ℝ)

/-- Scalar multiple of a vector; used to state collinearity hypotheses. -/
def smul (t : ℚ) (a : Vec3) : Vec3 := ⟨t * a.x, t * a.y, t * a.z⟩

/-- `AngleCalculator.calculate_elbow_angle(shoulder, elbow, wrist)`.

The zero-length guard `upper_arm_length == 0 or forearm_length == 0` is
expressed on the squared norms (for `s ≥ 0`, `√s = 0 ↔ s = 0`); the dot
product of the two normalized vectors is `a·b / (|a|·|b|)`, which is what
normalizing each factor first and then dotting computes; `np.clip(d, -1.0,
1.0)` is `min 1 (max (-1) d)`; `np.degrees(r)` is `r * 180 / π`.  The raised
`ValueError` becomes an `Except.error` carrying its message. -/
noncomputable def calculate_elbow_angle (shoulder elbow wrist : Point) :
    Except String ℝ :=
  let upper_arm := vsub shoulder elbow
  let forearm := vsub wrist elbow
  if normSq upper_arm = 0 ∨ normSq forearm = 0 then
    Except.error "Invalid keypoints: vectors have zero length"
  else
    let dot_product : ℝ :=
      ((dotQ upper_arm forearm : ℚ) : ℝ) / (vecNorm upper_arm * vecNorm forearm)
    let clamped := min 1 (max (-1) dot_product)
    let angle_radians := Real.arccos clamped
    Except.ok (angle_radians * 180 / Real.pi)

/-! ### `src/src/controllers/pose_detector.py` -/

/-- One MediaPipe landmark: a position plus its `visibility` confidence. -/
structure Landmark where
  x : ℚ
  y : ℚ
  z : ℚ
  visibility : ℚ
  deriving DecidableEq

/-- `PoseDetector.LEFT_SHOULDER = 11`. -/
def LEFT_SHOULDER : ℕ := 11
/-- `PoseDetector.LEFT_ELBOW = 13`. -/
def LEFT_ELBOW : ℕ := 13
/-- `PoseDetector.LEFT_WRIST = 15`. -/
def LEFT_WRIST : ℕ := 15
/-- `PoseDetector.RIGHT_SHOULDER = 12`. -/
def RIGHT_SHOULDER : ℕ := 12
/-- `PoseDetector.RIGHT_ELBOW = 14`. -/
def RIGHT_ELBOW : ℕ := 14
/-- `PoseDetector.RIGHT_WRIST = 16`. -/
def RIGHT_WRIST : ℕ := 16

/-- The `Point(x=lm.x, y=lm.y, z=lm.z)` conversion. -/
def landmarkPoint (lm : Landmark) : Point := ⟨lm.x, lm.y, lm.z⟩

/-- `PoseDetector._extract_arm_keypoints`: bounds check on the largest index,
then the minimum visibility against the confidence threshold. -/
def extract_arm_keypoints (confidence_threshold : ℚ) (landmark_list : List Landmark)
    (shoulder_idx elbow_idx wrist_idx : ℕ) : Option ArmKeypoints :=
  if h : max shoulder_idx (max elbow_idx wrist_idx) < landmark_list.length then
    let shoulder_lm := landmark_list.get
      ⟨shoulder_idx, lt_of_le_of_lt (le_max_left _ _) h⟩
    let elbow_lm := landmark_list.get
      ⟨elbow_idx, lt_of_le_of_lt (le_trans (le_max_left _ _) (le_max_right _ _)) h⟩
    let wrist_lm := landmark_list.get
      ⟨wrist_idx, lt_of_le_of_lt (le_trans (le_max_right _ _) (le_max_right _ _)) h⟩
    let min_confidence :=
      min shoulder_lm.visibility (min elbow_lm.visibility wrist_lm.visibility)
    if min_confidence < confidence_threshold then none
    else some ⟨landmarkPoint shoulder_lm, landmarkPoint elbow_lm,
               landmarkPoint wrist_lm, min_confidence⟩
  else none

/-- `PoseDetector.get_arm_keypoints`: raises `ValueError` on an empty
landmark list, otherwise tries the left arm first and falls back to the
right arm.  (The source computes the right arm only after the left one was
rejected; with pure functions the eager `let` is observationally equal.) -/
def get_arm_keypoints (confidence_threshold : ℚ) (landmark_list : List Landmark) :
    Except String (Option ArmKeypoints) :=
  if landmark_list = [] then
    Except.error "landmarks.landmarks cannot be empty"
  else
    let left_arm := extract_arm_keypoints confidence_threshold landmark_list
      LEFT_SHOULDER LEFT_ELBOW LEFT_WRIST
    let right_arm := extract_arm_keypoints confidence_threshold landmark_list
      RIGHT_SHOULDER RIGHT_ELBOW RIGHT_WRIST
    match left_arm with
    | some la =>
        if la.confidence ≥ confidence_threshold then Except.ok (some la)
        else
          match right_arm with
          | some ra =>
              if ra.confidence ≥ confidence_threshold then Except.ok (some ra)
              else Except.ok none
          | none => Except.ok none
    | none =>
        match right_arm with
        | some ra =>
            if ra.confidence ≥ confidence_threshold then Except.ok (some ra)
            else Except.ok none
        | none => Except.ok none

/-- The minimum per-point `visibility` of one arm's three landmarks, defined
whenever the landmark list is long enough for the three indices. -/
def arm_min_confidence (lms : List Landmark) (si ei wi : ℕ)
    (h : max si (max ei wi) < lms.length) : ℚ :=
  min (lms.get ⟨si, lt_of_le_of_lt (le_max_left _ _) h⟩).visibility
    (min (lms.get
        ⟨ei, lt_of_le_of_lt (le_trans (le_max_left _ _) (le_max_right _ _)) h⟩).visibility
      (lms.get
        ⟨wi, lt_of_le_of_lt (le_trans (le_max_right _ _) (le_max_right _ _)) h⟩).visibility)

/-- The `ArmKeypoints` value built from one arm's three landmarks, carrying
`arm_min_confidence` as its confidence. -/
def arm_keypoints_at (lms : List Landmark) (si ei wi : ℕ)
    (h : max si (max ei wi) < lms.length) : ArmKeypoints :=
  ⟨landmarkPoint (lms.get ⟨si, lt_of_le_of_lt (le_max_left _ _) h⟩),
   landmarkPoint (lms.get
     ⟨ei, lt_of_le_of_lt (le_trans (le_max_left _ _) (le_max_right _ _)) h⟩),
   landmarkPoint (lms.get
     ⟨wi, lt_of_le_of_lt (le_trans (le_max_right _ _) (le_max_right _ _)) h⟩),
   arm_min_confidence lms si ei wi h⟩

/-! ### `src/src/controllers/mouse_controller.py` -/

/-- A PyAutoGUI call performed by `_transition_to_state`. -/
inductive MouseOp where
  | mouseUpLeft
  | mouseUpRight
  | mouseDownLeft
  | mouseDownRight
  deriving DecidableEq

/-- The mutable fields of `MouseController`. -/
structure MouseState where
  current_state : ControlState := ControlState.NEUTRAL
  error_count : ℕ := 0
  deriving DecidableEq

/-- `MouseController._max_errors = 5`. -/
def MAX_ERRORS : ℕ := 5

/-- The PyAutoGUI calls `_transition_to_state` makes: release the currently
held button, then press the new one. -/
def transition_to_state_ops (cur new_state : ControlState) : List MouseOp :=
  (match cur with
   | ControlState.LEFT_CLICK => [MouseOp.mouseUpLeft]
   | ControlState.RIGHT_CLICK => [MouseOp.mouseUpRight]
   | ControlState.NEUTRAL => []) ++
  (match new_state with
   | ControlState.LEFT_CLICK => [MouseOp.mouseDownLeft]
   | ControlState.RIGHT_CLICK => [MouseOp.mouseDownRight]
   | ControlState.NEUTRAL => [])

/-- Outcome of one `MouseController.set_state` call: the updated controller
fields, whether `MouseControlError` was raised, and the PyAutoGUI calls that
were performed. -/
structure SetStateResult where
  mouse : MouseState
  raised : Bool
  ops : List MouseOp
  deriving DecidableEq

/-- `MouseController.set_state(state)`.  `ops_ok` models whether the
PyAutoGUI calls inside `_transition_to_state` succeed this time (an
external condition).  When they fail, the error count is incremented and
`MouseControlError` is raised only once the count reaches `_max_errors`;
below that the failure is swallowed and the call returns normally. -/
def set_state (m : MouseState) (state : ControlState) (ops_ok : Bool) :
    SetStateResult :=
  -- Avoid redundant commands
  if state = m.current_state then
    ⟨m, false, []⟩
  else if ops_ok then
    ⟨⟨state, 0⟩, false, transition_to_state_ops m.current_state state⟩
  else
    let ec := m.error_count + 1
    ⟨⟨m.current_state, ec⟩, decide (MAX_ERRORS ≤ ec), []⟩

/-- `MouseController.reset_error_count()`. -/
def reset_error_count (m : MouseState) : MouseState := ⟨m.current_state, 0⟩

/-! ### `src/src/controllers/application_controller.py` -/

/-- `SystemState` dataclass (`data_models.py`). -/
structure SystemState where
  pose_control_enabled : Bool := true
  current_control_state : ControlState := ControlState.NEUTRAL
  last_valid_angle : Option ℝ := none
  error_count : ℕ := 0

/-- The pieces of `ApplicationController` state the control loop mutates:
the `SystemState`, the `AngleCalculator._last_state` memory, and the
`MouseController` fields. -/
structure LoopState where
  system : SystemState
  calc_memory : Option ControlState
  mouse : MouseState

/-- `ApplicationController._set_neutral_state()`: only acts when the current
control state is not already `NEUTRAL`; a `MouseControlError` raised by
`set_state` is swallowed, leaving `current_control_state` unchanged. -/
def set_neutral_state (st : LoopState) (ops_ok : Bool) : LoopState :=
  if st.system.current_control_state ≠ ControlState.NEUTRAL then
    let r := set_state st.mouse ControlState.NEUTRAL ops_ok
    if r.raised then
      { st with mouse := r.mouse }
    else
      { st with
          system := { st.system with current_control_state := ControlState.NEUTRAL },
          mouse := r.mouse }
  else st

/-- `ApplicationController._update_mouse_control(control_state)`: on success
record the state and clear the loop error counter; on a raised
`MouseControlError` increment it and disable pose control once it exceeds 5. -/
def update_mouse_control (st : LoopState) (control_state : ControlState)
    (ops_ok : Bool) : LoopState :=
  let r := set_state st.mouse control_state ops_ok
  if r.raised then
    let ec := st.system.error_count + 1
    { st with
        system := { st.system with
          error_count := ec,
          pose_control_enabled :=
            if 5 < ec then false else st.system.pose_control_enabled },
        mouse := r.mouse }
  else
    { st with
        system := { st.system with
          current_control_state := control_state,
          error_count := 0 },
        mouse := r.mouse }

/-- `ApplicationController._process_pose_detection`, restricted to its state
effects.  `landmarks` is the optional result of `detect_pose`; `ops_ok`
models the success of this frame's PyAutoGUI calls.  Returns the updated
state together with a flag recording whether `get_control_state` was
invoked this frame; an exception that escapes (the `ValueError` raised by
`get_arm_keypoints` on an empty landmark list) is an `Except.error`. -/
noncomputable def process_pose_detection (confidence_threshold : ℚ)
    (st : LoopState) (landmarks : Option (List Landmark)) (ops_ok : Bool) :
    Except String (LoopState × Bool) :=
  match landmarks with
  | none =>
      -- No pose detected
      Except.ok (set_neutral_state st ops_ok, false)
  | some landmark_list =>
    match get_arm_keypoints confidence_threshold landmark_list with
    | Except.error msg => Except.error msg
    | Except.ok none =>
        -- No valid arm keypoints detected
        Except.ok (set_neutral_state st ops_ok, false)
    | Except.ok (some arm_keypoints) =>
      match calculate_elbow_angle arm_keypoints.shoulder arm_keypoints.elbow
          arm_keypoints.wrist with
      | Except.error _ =>
          -- ValueError caught: invalid angle calculation
          Except.ok (set_neutral_state st ops_ok, false)
      | Except.ok angle =>
        if is_angle_valid angle then
          let st1 := { st with
            system := { st.system with last_valid_angle := some angle } }
          let r := get_control_state st1.calc_memory angle
          Except.ok
            (update_mouse_control { st1 with calc_memory := r.2 } r.1 ops_ok, true)
        else
          Except.ok (st, false)

/-- The `key == 'r'` branch of `ApplicationController._handle_keyboard_input`:
clears the loop error counter, re-enables pose control and resets the mouse
controller's error counter.  It does not touch `AngleCalculator._last_state`. -/
def reset_command (st : LoopState) : LoopState :=
  { st with
      system := { st.system with error_count := 0, pose_control_enabled := true },
      mouse := reset_error_count st.mouse }

/-! ## Classifier evaluation lemmas -/

/-- The first component of `get_control_state`, with the effective thresholds
spelled out numerically (60 + 2 = 62, 90 − 2 = 88). -/
lemma gcs_fst (last : Option ControlState) (angle : ℚ) :
    (get_control_state last angle).1 =
      if angle < (if last = some ControlState.RIGHT_CLICK then (62 : ℚ) else 60) then
        ControlState.RIGHT_CLICK
      else if angle > (if last = some ControlState.LEFT_CLICK then (88 : ℚ) else 90) then
        ControlState.LEFT_CLICK
      else ControlState.NEUTRAL := by
  simp only [get_control_state]
  norm_num [RIGHT_CLICK_THRESHOLD, LEFT_CLICK_THRESHOLD, HYSTERESIS_MARGIN]

/-- `get_control_state` returns the pair of its own result and the memory set
to that result. -/
lemma gcs_eq (last : Option ControlState) (angle : ℚ) (s : ControlState)
    (h : (get_control_state last angle).1 = s) :
    get_control_state last angle = (s, some s) := by
  rw [← h]; rfl

lemma gcs_none_50 : get_control_state (none : Option ControlState) (50 : ℚ) =
    (ControlState.RIGHT_CLICK, some ControlState.RIGHT_CLICK) := by
  refine gcs_eq _ _ _ ?_
  rw [gcs_fst]
  simp only [reduceCtorEq, if_false]
  norm_num

lemma gcs_right_61 : get_control_state (some ControlState.RIGHT_CLICK) (61 : ℚ) =
    (ControlState.RIGHT_CLICK, some ControlState.RIGHT_CLICK) := by
  refine gcs_eq _ _ _ ?_
  rw [gcs_fst]
  simp only [Option.some.injEq, reduceCtorEq, eq_self_iff_true, if_true, if_false]
  norm_num

lemma gcs_right_63 : get_control_state (some ControlState.RIGHT_CLICK) (63 : ℚ) =
    (ControlState.NEUTRAL, some ControlState.NEUTRAL) := by
  refine gcs_eq _ _ _ ?_
  rw [gcs_fst]
  simp only [Option.some.injEq, reduceCtorEq, eq_self_iff_true, if_true, if_false]
  norm_num

lemma gcs_none_120 : get_control_state (none : Option ControlState) (120 : ℚ) =
    (ControlState.LEFT_CLICK, some ControlState.LEFT_CLICK) := by
  refine gcs_eq _ _ _ ?_
  rw [gcs_fst]
  simp only [reduceCtorEq, if_false]
  norm_num

lemma gcs_left_89 : get_control_state (some ControlState.LEFT_CLICK) (89 : ℚ) =
    (ControlState.LEFT_CLICK, some ControlState.LEFT_CLICK) := by
  refine gcs_eq _ _ _ ?_
  rw [gcs_fst]
  simp only [Option.some.injEq, reduceCtorEq, eq_self_iff_true, if_true, if_false]
  norm_num

lemma gcs_left_87 : get_control_state (some ControlState.LEFT_CLICK) (87 : ℚ) =
    (ControlState.NEUTRAL, some ControlState.NEUTRAL) := by
  refine gcs_eq _ _ _ ?_
  rw [gcs_fst]
  simp only [Option.some.injEq, reduceCtorEq, eq_self_iff_true, if_true, if_false]
  norm_num

/-! ## Claims about the classifier -/

/-- C1: `get_control_state` uses effective right threshold 62 exactly when the
memory is `RIGHT_CLICK` (else 60), effective left threshold 88 exactly when the
memory is `LEFT_CLICK` (else 90), and decides `RIGHT_CLICK` / `LEFT_CLICK` /
`NEUTRAL` by `angle < right` then `angle > left` in that order; from fresh
memory the run 50, 61, 63 gives RightPress, RightPress, Neutral and the run
120, 89, 87 gives LeftPress, LeftPress, Neutral. -/
theorem get_control_state_hysteresis_spec :
    (∀ (last : Option ControlState) (angle : ℚ),
      (get_control_state last angle).1 =
        if angle < (if last = some ControlState.RIGHT_CLICK then (62 : ℚ) else 60) then
          ControlState.RIGHT_CLICK
        else if angle > (if last = some ControlState.LEFT_CLICK then (88 : ℚ) else 90) then
          ControlState.LEFT_CLICK
        else ControlState.NEUTRAL)
    ∧ classifyRun none [(50 : ℚ), 61, 63] =
        [ControlState.RIGHT_CLICK, ControlState.RIGHT_CLICK, ControlState.NEUTRAL]
    ∧ classifyRun none [(120 : ℚ), 89, 87] =
        [ControlState.LEFT_CLICK, ControlState.LEFT_CLICK, ControlState.NEUTRAL] := by
  refine ⟨gcs_fst, ?_, ?_⟩
  · simp [classifyRun, gcs_none_50, gcs_right_61, gcs_right_63]
  · simp [classifyRun, gcs_none_120, gcs_left_89, gcs_left_87]

/-- C2 fails on the code: with memory `RIGHT_CLICK` the effective right
threshold is 62, so an exact 60 sample re-classifies as `RIGHT_CLICK`, not
`NEUTRAL`; symmetrically an exact 90 sample from memory `LEFT_CLICK`
classifies as `LEFT_CLICK`. -/
theorem boundary_not_history_independent :
    (get_control_state (some ControlState.RIGHT_CLICK) (60 : ℚ)).1 ≠
      ControlState.NEUTRAL ∧
    (get_control_state (some ControlState.LEFT_CLICK) (90 : ℚ)).1 ≠
      ControlState.NEUTRAL := by
  constructor
  · rw [gcs_fst]
    simp only [Option.some.injEq, reduceCtorEq, eq_self_iff_true, if_true, if_false]
    norm_num
    decide
  · rw [gcs_fst]
    simp only [Option.some.injEq, reduceCtorEq, eq_self_iff_true, if_true, if_false]
    norm_num
    decide

/-- C2 (amended): an exact 60 sample classifies as `NEUTRAL` for every prior
memory except `RIGHT_CLICK`, where it classifies as `RIGHT_CLICK`; an exact 90
sample classifies as `NEUTRAL` for every prior memory except `LEFT_CLICK`,
where it classifies as `LEFT_CLICK`. -/
theorem boundary_classification :
    ∀ last : Option ControlState,
      (get_control_state last (60 : ℚ)).1 =
        (if last = some ControlState.RIGHT_CLICK then ControlState.RIGHT_CLICK
         else ControlState.NEUTRAL) ∧
      (get_control_state last (90 : ℚ)).1 =
        (if last = some ControlState.LEFT_CLICK then ControlState.LEFT_CLICK
         else ControlState.NEUTRAL) := by
  intro last
  rcases last with _ | c
  · constructor <;>
      · rw [gcs_fst]
        simp only [reduceCtorEq, if_false]
        norm_num
  · cases c <;> constructor <;>
      · rw [gcs_fst]
        simp only [Option.some.injEq, reduceCtorEq, eq_self_iff_true, if_true, if_false]
        norm_num

/-- C5: `reset_state` clears the memory to `none`, a fresh memory classifies
with the plain thresholds 60 and 90, and in particular classifying 61 right
after a reset yields `NEUTRAL`. -/
theorem reset_state_clears_hysteresis :
    (∀ m : Option ControlState, reset_state m = none) ∧
    (∀ angle : ℚ, (get_control_state (none : Option ControlState) angle).1 =
      if angle < 60 then ControlState.RIGHT_CLICK
      else if angle > 90 then ControlState.LEFT_CLICK
      else ControlState.NEUTRAL) ∧
    (∀ m : Option ControlState,
      (get_control_state (reset_state m) (61 : ℚ)).1 = ControlState.NEUTRAL) := by
  refine ⟨fun _ => rfl, ?_, ?_⟩
  · intro angle
    rw [gcs_fst]
    simp only [reduceCtorEq, if_false]
  · intro m
    show (get_control_state (none : Option ControlState) (61 : ℚ)).1 = ControlState.NEUTRAL
    rw [gcs_fst]
    simp only [reduceCtorEq, if_false]
    norm_num

/-- C6: `get_control_state` is a deterministic function of the pair
(prior memory, angle), and the posterior memory always equals `some` of the
just-returned state. -/
theorem classify_deterministic_and_memorizing :
    ∀ (last : Option ControlState) (angle : ℚ),
      (∀ (last' : Option ControlState) (angle' : ℚ),
        last' = last → angle' = angle →
        get_control_state last' angle' = get_control_state last angle) ∧
      (get_control_state last angle).2 = some (get_control_state last angle).1 := by
  intro last angle
  constructor
  · intro last' angle' h1 h2
    rw [h1, h2]
  · rfl

/-- Witness for C6 at memory `none`, angle 75. -/
theorem classify_deterministic_and_memorizing_witness :
    ((none : Option ControlState) = none ∧ (75 : ℚ) = 75) ∧
      get_control_state (none : Option ControlState) (75 : ℚ) =
        get_control_state none (75 : ℚ) :=
  ⟨⟨rfl, rfl⟩, (classify_deterministic_and_memorizing none (75 : ℚ)).1 none 75 rfl rfl⟩

/-! ## Angle engine lemmas -/

lemma normSq_nonneg (a : Vec3) : 0 ≤ normSq a := by
  unfold normSq; positivity

lemma normSq_eq_zero_iff (a : Vec3) : normSq a = 0 ↔ a = ⟨0, 0, 0⟩ := by
  unfold normSq
  constructor
  · intro h
    have hx : a.x = 0 := by nlinarith [sq_nonneg a.x, sq_nonneg a.y, sq_nonneg a.z]
    have hy : a.y = 0 := by nlinarith [sq_nonneg a.x, sq_nonneg a.y, sq_nonneg a.z]
    have hz : a.z = 0 := by nlinarith [sq_nonneg a.x, sq_nonneg a.y, sq_nonneg a.z]
    cases a
    simp_all
  · rintro rfl
    norm_num

lemma vsub_eq_zero_iff (p q : Point) : vsub p q = ⟨0, 0, 0⟩ ↔ p = q := by
  cases p; cases q
  simp [vsub, Vec3.mk.injEq, Point.mk.injEq, sub_eq_zero]

lemma normSq_vsub_eq_zero_iff (p q : Point) : normSq (vsub p q) = 0 ↔ p = q := by
  rw [normSq_eq_zero_iff, vsub_eq_zero_iff]

/-- Where the zero-length guard passes, `calculate_elbow_angle` returns the
clamped-arccos value in degrees. -/
lemma calc_ok (s e w : Point)
    (hg : ¬(normSq (vsub s e) = 0 ∨ normSq (vsub w e) = 0)) :
    calculate_elbow_angle s e w = Except.ok
      (Real.arccos (min 1 (max (-1)
        (((dotQ (vsub s e) (vsub w e) : ℚ) : ℝ) /
          (vecNorm (vsub s e) * vecNorm (vsub w e))))) * 180 / Real.pi) := by
  simp only [calculate_elbow_angle]
  rw [if_neg hg]

/-- `arccos` in degrees lies in `[0, 180]`. -/
lemma deg_range (x : ℝ) : 0 ≤ Real.arccos x * 180 / Real.pi ∧
    Real.arccos x * 180 / Real.pi ≤ 180 := by
  have h1 := Real.arccos_nonneg x
  have h2 := Real.arccos_le_pi x
  have hpi := Real.pi_pos
  constructor
  · positivity
  · rw [div_le_iff₀ hpi]
    nlinarith

/-! ## Claims about the angle engine -/

/-- C3: `calculate_elbow_angle` raises exactly when one of the two
elbow-centered vectors has zero (squared) norm, equivalently exactly when
`shoulder = elbow` or `wrist = elbow` coordinate-wise; on every other input
it returns a value. -/
theorem degenerate_geometry_iff :
    ∀ shoulder elbow wrist : Point,
      ((∃ msg, calculate_elbow_angle shoulder elbow wrist = Except.error msg) ↔
        (normSq (vsub shoulder elbow) = 0 ∨ normSq (vsub wrist elbow) = 0)) ∧
      ((∃ msg, calculate_elbow_angle shoulder elbow wrist = Except.error msg) ↔
        (shoulder = elbow ∨ wrist = elbow)) ∧
      (¬(shoulder = elbow ∨ wrist = elbow) →
        ∃ r, calculate_elbow_angle shoulder elbow wrist = Except.ok r) := by
  intro s e w
  have hiff : (normSq (vsub s e) = 0 ∨ normSq (vsub w e) = 0) ↔
      (s = e ∨ w = e) := by
    rw [normSq_vsub_eq_zero_iff, normSq_vsub_eq_zero_iff]
  have herr : (∃ msg, calculate_elbow_angle s e w = Except.error msg) ↔
      (normSq (vsub s e) = 0 ∨ normSq (vsub w e) = 0) := by
    constructor
    · rintro ⟨msg, hmsg⟩
      by_contra hg
      simp only [calculate_elbow_angle] at hmsg
      rw [if_neg hg] at hmsg
      exact Except.noConfusion hmsg
    · intro hg
      refine ⟨"Invalid keypoints: vectors have zero length", ?_⟩
      simp only [calculate_elbow_angle]
      rw [if_pos hg]
  refine ⟨herr, herr.trans hiff, ?_⟩
  intro h
  have hg : ¬(normSq (vsub s e) = 0 ∨ normSq (vsub w e) = 0) := fun hh =>
    h (hiff.mp hh)
  exact ⟨_, calc_ok s e w hg⟩

/-- Witness for C3: shoulder (0,0,0), elbow (1,0,0), wrist (2,0,0) is
non-degenerate and the computation returns a value. -/
theorem degenerate_geometry_iff_witness :
    ¬((⟨0, 0, 0⟩ : Point) = ⟨1, 0, 0⟩ ∨ (⟨2, 0, 0⟩ : Point) = ⟨1, 0, 0⟩) ∧
    ∃ r, calculate_elbow_angle ⟨0, 0, 0⟩ ⟨1, 0, 0⟩ ⟨2, 0, 0⟩ = Except.ok r :=
  ⟨by decide, (degenerate_geometry_iff ⟨0, 0, 0⟩ ⟨1, 0, 0⟩ ⟨2, 0, 0⟩).2.2 (by decide)⟩

/-- C4: for non-coincident keypoints `calculate_elbow_angle` returns a value
in `[0, 180]` degrees; the right-angle configuration shoulder (0,0,0),
elbow (1,0,0), wrist (1,1,0) yields exactly 90, and any configuration with
wrist − elbow a negative multiple of shoulder − elbow (collinear, opposite
sides) yields exactly 180 — both well within the 1e-3 tolerance. -/
theorem elbow_angle_range_and_values :
    (∀ s e w : Point, s ≠ e → w ≠ e →
      ∃ r : ℝ, calculate_elbow_angle s e w = Except.ok r ∧ 0 ≤ r ∧ r ≤ 180) ∧
    (calculate_elbow_angle ⟨0, 0, 0⟩ ⟨1, 0, 0⟩ ⟨1, 1, 0⟩ = Except.ok 90) ∧
    (∀ (s e w : Point) (c : ℚ), 0 < c → s ≠ e →
      vsub w e = smul (-c) (vsub s e) →
      calculate_elbow_angle s e w = Except.ok 180) := by
  refine ⟨?_, ?_, ?_⟩
  · intro s e w hse hwe
    have hg : ¬(normSq (vsub s e) = 0 ∨ normSq (vsub w e) = 0) := by
      rw [normSq_vsub_eq_zero_iff, normSq_vsub_eq_zero_iff]
      tauto
    refine ⟨_, calc_ok s e w hg, deg_range _⟩
  · have hg : ¬(normSq (vsub (⟨0, 0, 0⟩ : Point) ⟨1, 0, 0⟩) = 0 ∨
        normSq (vsub (⟨1, 1, 0⟩ : Point) ⟨1, 0, 0⟩) = 0) := by
      norm_num [vsub, normSq]
    rw [calc_ok _ _ _ hg]
    have hd : (dotQ (vsub (⟨0, 0, 0⟩ : Point) ⟨1, 0, 0⟩)
        (vsub (⟨1, 1, 0⟩ : Point) ⟨1, 0, 0⟩)) = 0 := by
      norm_num [vsub, dotQ]
    rw [hd]
    push_cast
    rw [zero_div]
    norm_num [Real.arccos_zero]
    field_simp
    ring
  · intro s e w c hc hse hw
    have hns : normSq (vsub s e) ≠ 0 := fun h =>
      hse ((normSq_vsub_eq_zero_iff s e).mp h)
    have hnspos : (0 : ℚ) < normSq (vsub s e) :=
      lt_of_le_of_ne (normSq_nonneg _) (Ne.symm hns)
    have hsm : normSq (smul (-c) (vsub s e)) = c ^ 2 * normSq (vsub s e) := by
      simp only [normSq, smul]
      ring
    have hg : ¬(normSq (vsub s e) = 0 ∨ normSq (vsub w e) = 0) := by
      rw [hw, hsm]
      push_neg
      exact ⟨hns, by positivity⟩
    rw [calc_ok _ _ _ hg, hw]
    have hdot : dotQ (vsub s e) (smul (-c) (vsub s e)) =
        -c * normSq (vsub s e) := by
      simp only [dotQ, smul, normSq]
      ring
    have hnorm2 : vecNorm (smul (-c) (vsub s e)) = (c : ℝ) * vecNorm (vsub s e) := by
      unfold vecNorm
      rw [hsm]
      push_cast
      rw [Real.sqrt_mul (by positivity), Real.sqrt_sq (by exact_mod_cast hc.le)]
    rw [hdot, hnorm2]
    have hvn : vecNorm (vsub s e) * vecNorm (vsub s e) =
        ((normSq (vsub s e) : ℚ) : ℝ) := by
      unfold vecNorm
      exact Real.mul_self_sqrt (by exact_mod_cast hnspos.le)
    have hratio : ((-c * normSq (vsub s e) : ℚ) : ℝ) /
        (vecNorm (vsub s e) * ((c : ℝ) * vecNorm (vsub s e))) = -1 := by
      have hcR : (0 : ℝ) < (c : ℝ) := by exact_mod_cast hc
      have hnsR : (0 : ℝ) < ((normSq (vsub s e) : ℚ) : ℝ) := by exact_mod_cast hnspos
      rw [show vecNorm (vsub s e) * ((c : ℝ) * vecNorm (vsub s e)) =
          (c : ℝ) * (vecNorm (vsub s e) * vecNorm (vsub s e)) by ring, hvn]
      push_cast
      field_simp
    rw [hratio]
    norm_num [Real.arccos_neg_one]
    field_simp

/-- Witness for C4 on shoulder (0,0,0), elbow (1,0,0), wrist (2,0,0):
the points are pairwise non-coincident in the required sense, the general
conjunct yields a value in range, and the collinear conjunct (scale c = 1)
yields exactly 180. -/
theorem elbow_angle_range_and_values_witness :
    ((⟨0, 0, 0⟩ : Point) ≠ ⟨1, 0, 0⟩ ∧ (⟨2, 0, 0⟩ : Point) ≠ ⟨1, 0, 0⟩ ∧
      (0 : ℚ) < 1 ∧
      vsub ⟨2, 0, 0⟩ ⟨1, 0, 0⟩ = smul (-1) (vsub ⟨0, 0, 0⟩ ⟨1, 0, 0⟩)) ∧
    (∃ r : ℝ, calculate_elbow_angle ⟨0, 0, 0⟩ ⟨1, 0, 0⟩ ⟨2, 0, 0⟩ = Except.ok r ∧
      0 ≤ r ∧ r ≤ 180) ∧
    calculate_elbow_angle ⟨0, 0, 0⟩ ⟨1, 0, 0⟩ ⟨2, 0, 0⟩ = Except.ok 180 :=
  ⟨⟨by decide, by decide, by norm_num, by norm_num [vsub, smul]⟩,
   elbow_angle_range_and_values.1 ⟨0, 0, 0⟩ ⟨1, 0, 0⟩ ⟨2, 0, 0⟩
     (by decide) (by decide),
   elbow_angle_range_and_values.2.2 ⟨0, 0, 0⟩ ⟨1, 0, 0⟩ ⟨2, 0, 0⟩ 1
     (by norm_num) (by decide) (by norm_num [vsub, smul])⟩

/-! ## Claims about the mouse adapter and the control loop -/

/-- C10: `set_state` with the state already held returns at once: no PyAutoGUI
press/release calls, no raise, and both the current state and the error
counter are unchanged. -/
theorem set_state_redundant_suppressed :
    ∀ (m : MouseState) (s : ControlState) (ops_ok : Bool),
      s = m.current_state →
      set_state m s ops_ok = ⟨m, false, []⟩ := by
  intro m s ok h
  simp [set_state, h]

/-- Witness for C10: a held `LEFT_CLICK` re-commanded is a no-op. -/
theorem set_state_redundant_suppressed_witness :
    ControlState.LEFT_CLICK =
      (⟨ControlState.LEFT_CLICK, 2⟩ : MouseState).current_state ∧
    set_state ⟨ControlState.LEFT_CLICK, 2⟩ ControlState.LEFT_CLICK true =
      ⟨⟨ControlState.LEFT_CLICK, 2⟩, false, []⟩ :=
  ⟨rfl, set_state_redundant_suppressed ⟨ControlState.LEFT_CLICK, 2⟩
    ControlState.LEFT_CLICK true rfl⟩

/-- C8 fails on the code: the `'r'` reset handler clears the loop error
counter and the mouse controller error counter but never calls
`AngleCalculator.reset_state`, so the classifier's `_last_state` memory
survives a manual reset. -/
theorem reset_command_keeps_classifier_memory :
    (reset_command
        ⟨⟨false, ControlState.NEUTRAL, none, 7⟩, some ControlState.LEFT_CLICK,
          ⟨ControlState.NEUTRAL, 6⟩⟩).calc_memory = some ControlState.LEFT_CLICK ∧
    (reset_command
        ⟨⟨false, ControlState.NEUTRAL, none, 7⟩, some ControlState.LEFT_CLICK,
          ⟨ControlState.NEUTRAL, 6⟩⟩).calc_memory ≠ none := by
  constructor
  · rfl
  · intro h
    exact Option.noConfusion h

/-- C8 (amended): a raised injection failure increments the loop error
counter and a success resets it to 0; once the counter exceeds 5, pose
control is disabled; neither the neutral fallback nor the mouse-control
update ever re-enables it; and the manual reset clears the loop error
counter and the mouse controller's error counter and re-enables control,
while leaving the classifier's `_last_state` memory unchanged. -/
theorem error_accounting_and_reset :
    (∀ (st : LoopState) (cs : ControlState) (ops_ok : Bool),
      ((set_state st.mouse cs ops_ok).raised = true →
        (update_mouse_control st cs ops_ok).system.error_count =
          st.system.error_count + 1 ∧
        (5 < st.system.error_count + 1 →
          (update_mouse_control st cs ops_ok).system.pose_control_enabled = false)) ∧
      ((set_state st.mouse cs ops_ok).raised = false →
        (update_mouse_control st cs ops_ok).system.error_count = 0) ∧
      ((update_mouse_control st cs ops_ok).system.pose_control_enabled = true →
        st.system.pose_control_enabled = true)) ∧
    (∀ (st : LoopState) (ops_ok : Bool),
      (set_neutral_state st ops_ok).system.pose_control_enabled =
        st.system.pose_control_enabled) ∧
    (∀ st : LoopState,
      (reset_command st).system.error_count = 0 ∧
      (reset_command st).system.pose_control_enabled = true ∧
      (reset_command st).mouse.error_count = 0 ∧
      (reset_command st).calc_memory = st.calc_memory) := by
  refine ⟨?_, ?_, ?_⟩
  · intro st cs ops_ok
    refine ⟨?_, ?_, ?_⟩
    · intro h
      constructor
      · simp [update_mouse_control, h]
      · intro h5
        simp [update_mouse_control, h, h5]
    · intro h
      simp [update_mouse_control, h]
    · intro h
      by_cases hr : (set_state st.mouse cs ops_ok).raised = true
      · by_cases h5 : 5 < st.system.error_count + 1
        · simp [update_mouse_control, hr, h5] at h
        · simpa [update_mouse_control, hr, h5] using h
      · simpa [update_mouse_control, hr] using h
  · intro st ops_ok
    unfold set_neutral_state
    split_ifs with h
    · cases hr : (set_state st.mouse ControlState.NEUTRAL ops_ok).raised <;>
        simp [hr]
    · rfl
  · intro st
    exact ⟨rfl, rfl, rfl, rfl⟩

/-- Witness for C8 on a loop state whose mouse controller is one failure
away from raising and whose loop counter is at 5: the failing call raises,
the counter becomes 6, and pose control turns off. -/
theorem error_accounting_and_reset_witness :
    (set_state (⟨ControlState.NEUTRAL, 4⟩ : MouseState)
        ControlState.LEFT_CLICK false).raised = true ∧
    (update_mouse_control
        ⟨⟨true, ControlState.NEUTRAL, none, 5⟩, none, ⟨ControlState.NEUTRAL, 4⟩⟩
        ControlState.LEFT_CLICK false).system.error_count = 5 + 1 ∧
    (update_mouse_control
        ⟨⟨true, ControlState.NEUTRAL, none, 5⟩, none, ⟨ControlState.NEUTRAL, 4⟩⟩
        ControlState.LEFT_CLICK false).system.pose_control_enabled = false := by
  have h := (error_accounting_and_reset.1
    ⟨⟨true, ControlState.NEUTRAL, none, 5⟩, none, ⟨ControlState.NEUTRAL, 4⟩⟩
    ControlState.LEFT_CLICK false).1 (by decide)
  exact ⟨by decide, h.1, h.2 (by decide)⟩

/-- `_set_neutral_state` never touches the classifier memory or the loop
error counter. -/
lemma set_neutral_state_preserves (st : LoopState) (ops_ok : Bool) :
    (set_neutral_state st ops_ok).calc_memory = st.calc_memory ∧
    (set_neutral_state st ops_ok).system.error_count = st.system.error_count := by
  unfold set_neutral_state
  split_ifs with h
  · cases hr : (set_state st.mouse ControlState.NEUTRAL ops_ok).raised <;> simp [hr]
  · exact ⟨rfl, rfl⟩

/-- A `set_state` call whose PyAutoGUI operations succeed never raises. -/
lemma set_state_ok_not_raised (m : MouseState) (s : ControlState) :
    (set_state m s true).raised = false := by
  unfold set_state
  split_ifs with h1 h2
  · rfl
  · rfl
  · exact absurd rfl h2

/-- With working injection, `_set_neutral_state` leaves the system in the
`NEUTRAL` control state. -/
lemma set_neutral_state_neutral (st : LoopState) :
    (set_neutral_state st true).system.current_control_state =
      ControlState.NEUTRAL := by
  unfold set_neutral_state
  split_ifs with h
  · simp [set_state_ok_not_raised]
  · simpa using h

/-- C7: on a frame with no usable arm keypoints — no pose detected, both arms
rejected, or degenerate geometry — `_process_pose_detection` never invokes
`get_control_state` (the returned flag is `false`), leaves the classifier's
`_last_state` memory and the loop error counter unchanged, and (when the
injection call succeeds) falls back to the `NEUTRAL` control state. -/
theorem missing_frame_fallback :
    ∀ (ct : ℚ) (st : LoopState) (landmarks : Option (List Landmark))
      (ops_ok : Bool),
      (landmarks = none ∨
       (∃ lms, landmarks = some lms ∧
         get_arm_keypoints ct lms = Except.ok none) ∨
       (∃ lms ak msg, landmarks = some lms ∧
         get_arm_keypoints ct lms = Except.ok (some ak) ∧
         calculate_elbow_angle ak.shoulder ak.elbow ak.wrist = Except.error msg)) →
      ∃ st', process_pose_detection ct st landmarks ops_ok =
          Except.ok (st', false) ∧
        st'.calc_memory = st.calc_memory ∧
        st'.system.error_count = st.system.error_count ∧
        (ops_ok = true →
          st'.system.current_control_state = ControlState.NEUTRAL) := by
  intro ct st landmarks ops_ok h
  have key : process_pose_detection ct st landmarks ops_ok =
      Except.ok (set_neutral_state st ops_ok, false) := by
    rcases h with rfl | ⟨lms, rfl, hk⟩ | ⟨lms, ak, msg, rfl, hk, hc⟩
    · rfl
    · simp [process_pose_detection, hk]
    · simp [process_pose_detection, hk, hc]
  refine ⟨set_neutral_state st ops_ok, key,
    (set_neutral_state_preserves st ops_ok).1,
    (set_neutral_state_preserves st ops_ok).2, ?_⟩
  rintro rfl
  exact set_neutral_state_neutral st

/-- Witness for C7: a frame with no detected pose, processed from a state
holding `LEFT_CLICK` classifier memory and 3 accumulated errors: the memory
and counter survive and the control state falls back to `NEUTRAL`. -/
theorem missing_frame_fallback_witness :
    ((none : Option (List Landmark)) = none) ∧
    ∃ st', process_pose_detection (1 / 2)
        ⟨⟨true, ControlState.LEFT_CLICK, none, 3⟩, some ControlState.LEFT_CLICK,
          ⟨ControlState.LEFT_CLICK, 0⟩⟩ none true = Except.ok (st', false) ∧
      st'.calc_memory = some ControlState.LEFT_CLICK ∧
      st'.system.error_count = 3 ∧
      st'.system.current_control_state = ControlState.NEUTRAL := by
  refine ⟨rfl, ?_⟩
  obtain ⟨st', h1, h2, h3, h4⟩ := missing_frame_fallback (1 / 2)
    ⟨⟨true, ControlState.LEFT_CLICK, none, 3⟩, some ControlState.LEFT_CLICK,
      ⟨ControlState.LEFT_CLICK, 0⟩⟩ none true (Or.inl rfl)
  exact ⟨st', h1, h2, h3, h4 rfl⟩

/-! ## Claims about arm keypoint extraction -/

/-- Characterization of `_extract_arm_keypoints`: with the indices in range it
returns the arm's keypoints exactly when the minimum visibility reaches the
threshold, and `none` when it does not or when the list is too short. -/
lemma extract_char (ct : ℚ) (lms : List Landmark) (si ei wi : ℕ) :
    (∀ h : max si (max ei wi) < lms.length,
      (ct ≤ arm_min_confidence lms si ei wi h →
        extract_arm_keypoints ct lms si ei wi =
          some (arm_keypoints_at lms si ei wi h)) ∧
      (arm_min_confidence lms si ei wi h < ct →
        extract_arm_keypoints ct lms si ei wi = none)) ∧
    (¬ max si (max ei wi) < lms.length →
      extract_arm_keypoints ct lms si ei wi = none) := by
  constructor
  · intro h
    constructor
    · intro hc
      simp only [extract_arm_keypoints]
      rw [dif_pos h]
      split_ifs with hcond
      · exact absurd hcond (not_lt.mpr hc)
      · rfl
    · intro hc
      simp only [extract_arm_keypoints]
      rw [dif_pos h]
      split_ifs with hcond
      · rfl
      · exact absurd hc hcond
  · intro h
    simp only [extract_arm_keypoints]
    rw [dif_neg h]

/-- A successful extraction carries exactly the arm's minimum visibility as
its confidence, which reaches the threshold. -/
lemma extract_some_conf (ct : ℚ) (lms : List Landmark) (si ei wi : ℕ)
    (ak : ArmKeypoints) (hak : extract_arm_keypoints ct lms si ei wi = some ak) :
    ct ≤ ak.confidence ∧
    ∃ hb : max si (max ei wi) < lms.length,
      ak = arm_keypoints_at lms si ei wi hb := by
  by_cases hb : max si (max ei wi) < lms.length
  · rcases lt_or_ge (arm_min_confidence lms si ei wi hb) ct with hc | hc
    · rw [((extract_char ct lms si ei wi).1 hb).2 hc] at hak
      cases hak
    · rw [((extract_char ct lms si ei wi).1 hb).1 hc] at hak
      injection hak with h
      subst h
      exact ⟨hc, hb, rfl⟩
  · rw [(extract_char ct lms si ei wi).2 hb] at hak
    cases hak

/-- C9 fails on the code at the empty landmark list: instead of returning
nothing, `get_arm_keypoints` raises `ValueError`. -/
theorem get_arm_keypoints_empty_raises :
    get_arm_keypoints (1 / 2 : ℚ) [] =
      Except.error "landmarks.landmarks cannot be empty" ∧
    get_arm_keypoints (1 / 2 : ℚ) [] ≠ Except.ok none := by
  have he : get_arm_keypoints (1 / 2 : ℚ) ([] : List Landmark) =
      Except.error "landmarks.landmarks cannot be empty" := rfl
  exact ⟨he, fun h => Except.noConfusion (he.symm.trans h)⟩

/-- C9 (amended): on every nonempty landmark list, arm extraction follows the
bound + minimum-visibility rule per arm; the left arm is returned whenever it
extracts, the right arm whenever the left does not and the right does, and
nothing when both fail; any returned keypoints equal one arm's
`arm_keypoints_at` (so the confidence is that arm's minimum per-point
visibility) and reach the threshold.  (The empty list raises instead.) -/
theorem arm_keypoint_extraction_spec :
    ∀ (ct : ℚ) (lms : List Landmark), lms ≠ [] →
      (∀ si ei wi : ℕ,
        (∀ h : max si (max ei wi) < lms.length,
          (ct ≤ arm_min_confidence lms si ei wi h →
            extract_arm_keypoints ct lms si ei wi =
              some (arm_keypoints_at lms si ei wi h)) ∧
          (arm_min_confidence lms si ei wi h < ct →
            extract_arm_keypoints ct lms si ei wi = none)) ∧
        (¬ max si (max ei wi) < lms.length →
          extract_arm_keypoints ct lms si ei wi = none)) ∧
      (∀ la, extract_arm_keypoints ct lms LEFT_SHOULDER LEFT_ELBOW LEFT_WRIST =
          some la →
        get_arm_keypoints ct lms = Except.ok (some la)) ∧
      (extract_arm_keypoints ct lms LEFT_SHOULDER LEFT_ELBOW LEFT_WRIST = none →
        ∀ ra, extract_arm_keypoints ct lms RIGHT_SHOULDER RIGHT_ELBOW RIGHT_WRIST =
            some ra →
          get_arm_keypoints ct lms = Except.ok (some ra)) ∧
      (extract_arm_keypoints ct lms LEFT_SHOULDER LEFT_ELBOW LEFT_WRIST = none →
        extract_arm_keypoints ct lms RIGHT_SHOULDER RIGHT_ELBOW RIGHT_WRIST = none →
        get_arm_keypoints ct lms = Except.ok none) ∧
      (∀ ak, get_arm_keypoints ct lms = Except.ok (some ak) →
        ct ≤ ak.confidence ∧
        ((∃ hb : max LEFT_SHOULDER (max LEFT_ELBOW LEFT_WRIST) < lms.length,
            ak = arm_keypoints_at lms LEFT_SHOULDER LEFT_ELBOW LEFT_WRIST hb) ∨
         (∃ hb : max RIGHT_SHOULDER (max RIGHT_ELBOW RIGHT_WRIST) < lms.length,
            ak = arm_keypoints_at lms RIGHT_SHOULDER RIGHT_ELBOW RIGHT_WRIST hb))) := by
  intro ct lms hne
  have h2 : ∀ la,
      extract_arm_keypoints ct lms LEFT_SHOULDER LEFT_ELBOW LEFT_WRIST = some la →
      get_arm_keypoints ct lms = Except.ok (some la) := by
    intro la hla
    have hc := (extract_some_conf ct lms _ _ _ la hla).1
    simp [get_arm_keypoints, hne, hla, hc]
  have h3 :
      extract_arm_keypoints ct lms LEFT_SHOULDER LEFT_ELBOW LEFT_WRIST = none →
      ∀ ra, extract_arm_keypoints ct lms RIGHT_SHOULDER RIGHT_ELBOW RIGHT_WRIST =
          some ra →
        get_arm_keypoints ct lms = Except.ok (some ra) := by
    intro hl ra hra
    have hc := (extract_some_conf ct lms _ _ _ ra hra).1
    simp [get_arm_keypoints, hne, hl, hra, hc]
  have h4 :
      extract_arm_keypoints ct lms LEFT_SHOULDER LEFT_ELBOW LEFT_WRIST = none →
      extract_arm_keypoints ct lms RIGHT_SHOULDER RIGHT_ELBOW RIGHT_WRIST = none →
      get_arm_keypoints ct lms = Except.ok none := by
    intro hl hr
    simp [get_arm_keypoints, hne, hl, hr]
  refine ⟨fun si ei wi => extract_char ct lms si ei wi, h2, h3, h4, ?_⟩
  intro ak hak
  rcases hl : extract_arm_keypoints ct lms LEFT_SHOULDER LEFT_ELBOW LEFT_WRIST
    with _ | la
  · rcases hr : extract_arm_keypoints ct lms RIGHT_SHOULDER RIGHT_ELBOW RIGHT_WRIST
      with _ | ra
    · rw [h4 hl hr] at hak
      injection hak with h
      cases h
    · rw [h3 hl ra hr] at hak
      injection hak with h
      injection h with h
      subst h
      obtain ⟨hcc, hb, heq⟩ := extract_some_conf ct lms _ _ _ ra hr
      exact ⟨hcc, Or.inr ⟨hb, heq⟩⟩
  · rw [h2 la hl] at hak
    injection hak with h
    injection h with h
    subst h
    obtain ⟨hcc, hb, heq⟩ := extract_some_conf ct lms _ _ _ la hl
    exact ⟨hcc, Or.inl ⟨hb, heq⟩⟩

/-- Witness for C9 on the one-landmark list: nonempty, both arms out of
range, so extraction returns nothing. -/
theorem arm_keypoint_extraction_spec_witness :
    ([⟨0, 0, 0, 1⟩] : List Landmark) ≠ [] ∧
    get_arm_keypoints (1 / 2) [⟨0, 0, 0, 1⟩] = Except.ok none := by
  have hne : ([⟨0, 0, 0, 1⟩] : List Landmark) ≠ [] := by simp
  have T := arm_keypoint_extraction_spec (1 / 2) [⟨0, 0, 0, 1⟩] hne
  have hl := (T.1 LEFT_SHOULDER LEFT_ELBOW LEFT_WRIST).2 (by decide)
  have hr := (T.1 RIGHT_SHOULDER RIGHT_ELBOW RIGHT_WRIST).2 (by decide)
  exact ⟨hne, T.2.2.2.1 hl hr⟩

end MinecraftController
